import Mathlib

/-!
Shallow embedding of the ZendarSDK imaging-viewer tools
(`src/Tools/imaging_viewer/imaging_viewer.py` and
`src/Tools/imaging_viewer/point_cloud_viewer.py`) and proofs about them.

Physical quantities (point coordinates, timestamps, the 0.1 m resolution) are
modelled as exact rationals; pixel indices and frame dimensions as integers;
pixel values as triples of naturals.
-/

namespace Viewer

/-- An RGB pixel value (one byte per channel, the code only ever writes 0 or 255). -/
abbrev Color := ℕ × ℕ × ℕ

/-- The background value of `np.zeros((imsize_y, imsize_x, 3), dtype=np.uint8)`. -/
def black : Color := (0, 0, 0)

/-- The marker color passed to `cv2.circle` (`color=(255, 0, 0)`). -/
def markerColor : Color := (255, 0, 0)

/-- Python `int()` applied to a (rational) number: truncation toward zero. -/
def pyInt (q : ℚ) : ℤ := if 0 ≤ q then ⌊q⌋ else ⌈q⌉

/-- One entry of a decoded point cloud: two spatial coordinates and one
auxiliary value, as in the tuples iterated by
`for (x, y, _) in im_pts` (imaging_viewer.py line 168). -/
structure Point where
  x : ℚ
  y : ℚ
  aux : ℚ
deriving DecidableEq

/- Default imaging area of `convert_point_cloud_stream`
(imaging_viewer.py lines 144-152). -/

def xmin : ℚ := 0
def xmax : ℚ := 60
def ymin : ℚ := -30
def ymax : ℚ := 30
def im_res : ℚ := 1 / 10

/-- `imsize_y = int((ymax - ymin) / im_res)` (line 151). -/
def imsize_y : ℤ := pyInt ((ymax - ymin) / im_res)

/-- `imsize_x = int((xmax - xmin) / im_res)` (line 152). -/
def imsize_x : ℤ := pyInt ((xmax - xmin) / im_res)

/-- The per-point coordinate transform of lines 164-165:
`im_pts[:,0] = (im_pts[:,0] - xmin) / im_res` and
`im_pts[:,1] = (im_pts[:,1] - ymin) / im_res`. -/
def transform (p : Point) : Point :=
  { x := (p.x - xmin) / im_res, y := (p.y - ymin) / im_res, aux := p.aux }

/-- The circle center passed to `cv2.circle` at line 170:
`center=(int(y), int(x))` for a transformed point `(x, y, _)`.  In OpenCV the
first component of `center` is the column index and the second the row index,
so the result is `(column, row)`. -/
def pixelCenter (p : Point) : ℤ × ℤ :=
  (pyInt (transform p).y, pyInt (transform p).x)

/-- Whether pixel `(row r, column c)` lies inside the
`imsize_y × imsize_x` raster allocated at line 166. -/
def inBounds (r c : ℤ) : Bool :=
  decide (0 ≤ r) && decide (r < imsize_y) && decide (0 ≤ c) && decide (c < imsize_x)

/-- Model of the footprint of `cv2.circle(..., radius=1, thickness=-1)`
(a third-party routine): the filled disc of Euclidean radius 1 around the
center `(column, row)`, i.e. the center pixel and its four edge neighbours. -/
def markerCovers (ctr : ℤ × ℤ) (r c : ℤ) : Bool :=
  decide ((c - ctr.1) ^ 2 + (r - ctr.2) ^ 2 ≤ 1)

/-- Stamping one marker onto the raster (lines 169-173).  `cv2.circle` clips
the disc to the image, so pixels outside the raster bounds are untouched. -/
def stampCircle (img : ℤ → ℤ → Color) (ctr : ℤ × ℤ) : ℤ → ℤ → Color :=
  fun r c => if inBounds r c && markerCovers ctr r c then markerColor else img r c

/-- Whether the marker stamped for point `p` writes the pixel `(r, c)`. -/
def covers (p : Point) (r c : ℤ) : Bool :=
  inBounds r c && markerCovers (pixelCenter p) r c

/-- The raster produced for one point-cloud frame (lines 163-173): a zeroed
`imsize_y × imsize_x` image with one radius-1 filled marker stamped per point,
read as a function from (row, column) to pixel value. -/
def pc_image (pts : List Point) : ℤ → ℤ → Color :=
  pts.foldl (fun img p => stampCircle img (pixelCenter p)) (fun _ _ => black)

end Viewer

namespace Viewer

/-- A decoded tracker-state record.  Modelled from the spec: the class
`RadarPointCloud` (module `radar_point_cloud`, not under src/) carries a
`frame_id`, a `timestamp` in seconds and a `point_cloud` list of 3-tuples. -/
structure RadarPointCloud where
  frame_id : ℤ
  timestamp : ℚ
  point_cloud : List Point
deriving DecidableEq

/-- A rendered RGB raster frame: the numpy array's shape `(height, width, 3)`
together with its pixel values. -/
structure Raster where
  height : ℤ
  width : ℤ
  pix : ℤ → ℤ → Color

/-- imaging_viewer.convert_point_cloud_stream (lines 140-175) viewed on the
list of decoded records its `RadarDataStreamer` yields (modelled from the
spec: the streamer, not under src/, yields each decoded record of the file in
order).  A record with an empty point list is skipped (`continue`, lines
160-161); every other record is rendered and yielded together with its
raster. -/
def convert_point_cloud_stream (recs : List RadarPointCloud) :
    List (RadarPointCloud × Raster) :=
  recs.filterMap (fun pc =>
    if pc.point_cloud.length = 0 then none
    else some (pc, { height := imsize_y, width := imsize_x,
                     pix := pc_image pc.point_cloud }))

/-- Observable state of the frame loop of imaging_viewer.main (lines 96-121):
the VideoWriter constructions performed so far (line 107, recording the
`im_width, im_height` arguments), the number of frames pushed to the display
sink (`artist.set_data`, line 119), the number of frames written to the video
writer (line 116), and whether the loop has died with an exception. -/
structure MainState where
  constructions : List (ℤ × ℤ)
  displayed : ℕ
  encoded : ℕ
  crashed : Bool
deriving DecidableEq

def initMainState : MainState :=
  { constructions := [], displayed := 0, encoded := 0, crashed := false }

/-- One iteration of the frame loop of imaging_viewer.main for one yielded
`(raw_data, im_rgb)` pair.  When an output directory was given and no video
writer exists yet, line 107 constructs the VideoWriter from the current
frame's width and height — and line 112 then evaluates `stack.enter_context`,
but `stack` is bound nowhere in `main`, so a NameError is raised and the loop
aborts before reaching the write (line 116) and the display update (line
119).  Without an output directory no writer is ever constructed and each
frame is pushed to the display. -/
def mainStep (hasOutputDir : Bool) (s : MainState)
    (pr : RadarPointCloud × Raster) : MainState :=
  if s.crashed then s
  else if hasOutputDir && s.constructions.isEmpty then
    { s with constructions := s.constructions ++ [(pr.2.width, pr.2.height)],
             crashed := true }
  else
    { s with displayed := s.displayed + 1 }

/-- The frame loop of imaging_viewer.main (lines 96-121) run over one
point-cloud session. -/
def runMain (hasOutputDir : Bool) (recs : List RadarPointCloud) : MainState :=
  (convert_point_cloud_stream recs).foldl (mainStep hasOutputDir) initMainState

/-- Renders a natural number below 100 with two digits, as the final digits of
a `"%.2f"` rendering. -/
def twoDigits (n : ℕ) : String :=
  if n < 10 then "0" ++ toString n else toString n

/-- Rounds a rational to the nearest integer, ties to even — the rounding used
by Python float formatting. -/
def roundHalfEven (q : ℚ) : ℤ :=
  if q - (⌊q⌋ : ℚ) < 1 / 2 then ⌊q⌋
  else if (1 : ℚ) / 2 < q - (⌊q⌋ : ℚ) then ⌊q⌋ + 1
  else if ⌊q⌋ % 2 = 0 then ⌊q⌋ else ⌊q⌋ + 1

/-- Model of the Python format `"%2.2f" % t` (imaging_viewer.py line 192):
the value rendered with exactly two digits after the decimal point, rounding
half to even.  The minimum field width 2 never pads, since every such
rendering is at least four characters long.  The source formats an IEEE
double; we model the timestamp as an exact rational, which does not reproduce
the `"-0.00"` rendering of tiny negative doubles. -/
def fmtFloat2 (t : ℚ) : String :=
  let n := roundHalfEven (t * 100)
  let sign := if n < 0 then "-" else ""
  sign ++ toString (n.natAbs / 100) ++ "." ++ twoDigits (n.natAbs % 100)

/-- What the overlay helpers stamp onto a frame. -/
inductive OverlayEvent
  | label (text : String)
  | gridLine (separation : ℚ)
deriving DecidableEq

/-- A raster frame together with the overlay stamps applied to it so far. -/
structure AnnotatedRaster where
  raster : Raster
  events : List OverlayEvent

/-- Modelled from the spec: `draw_timestamp` (module `radar_image_overlay`,
not under src/) stamps the given label string at a fixed screen position on
the frame; we record the stamp as an overlay event. -/
def draw_timestamp (im : AnnotatedRaster) (text : String) : AnnotatedRaster :=
  { im with events := im.events ++ [OverlayEvent.label text] }

/-- imaging_viewer.overlay_metadata (lines 178-196).  Lines 179-189 are the
function's docstring — a bare string literal, so the range-marker block quoted
inside it is inert and the `show_range_marker` parameter (default `False` in
the source) has no effect.  The live body (lines 191-196) formats the
timestamp with `"%2.2f"`, the frame id with `"%d"`, and stamps
`frame_id + ":" + timestamp` via `draw_timestamp`. -/
def overlay_metadata (raw_image : RadarPointCloud) (im_rgb : AnnotatedRaster)
    (show_range_marker : Bool) : AnnotatedRaster :=
  draw_timestamp im_rgb
    (toString raw_image.frame_id ++ ":" ++ fmtFloat2 raw_image.timestamp)

end Viewer

namespace Viewer

/-- The `IOPath` namedtuple of imaging_viewer.py (lines 22-24). -/
structure IOPath where
  image_pbs_path : Option String
  pc_pbs_path : Option String
  output_path : Option String
deriving DecidableEq

/-- `os.path.join` for the shapes the tools use (directory, relative name). -/
def pyJoin (a b : String) : String := a ++ "/" ++ b

/-- The per-radar-name path construction of imaging_viewer.main (lines
60-77): the output path is `join(output_dir, radar_name + ".mp4")` computed
before the mode branch, so it is the same in both modes; the input is
`<radar_name>_points.pbs` in point-cloud mode and `<radar_name>_images.pbs`
otherwise. -/
def mkIOPath (input_dir : String) (output_dir : Option String)
    (point_cloud : Bool) (radar_name : String) : IOPath :=
  let output_path := output_dir.map (fun d => pyJoin d (radar_name ++ ".mp4"))
  if point_cloud then
    { image_pbs_path := none,
      pc_pbs_path := some (pyJoin input_dir (radar_name ++ "_points.pbs")),
      output_path := output_path }
  else
    { image_pbs_path := some (pyJoin input_dir (radar_name ++ "_images.pbs")),
      pc_pbs_path := none,
      output_path := output_path }

/-- The per-radar-name path construction of point_cloud_viewer.main (lines
47-54): input `<radar_name>_points.pbs`, output
`<radar_name>_points.mp4` when an output directory is given. -/
def pcv_mkPaths (input_dir : String) (output_dir : Option String)
    (radar_name : String) : String × Option String :=
  (pyJoin input_dir (radar_name ++ "_points.pbs"),
   output_dir.map (fun d => pyJoin d (radar_name ++ "_points.mp4")))

/-- The input path whose existence imaging_viewer.main checks for one
io_path (lines 84-92): the image path when in image mode, else the
point-cloud path. -/
def inputPath (io : IOPath) : String :=
  match io.image_pbs_path with
  | some p => p
  | none => io.pc_pbs_path.getD ""

/-- Outcome of the batch loop of imaging_viewer.main (lines 80-121):
either every io_path was processed, or `sys.exit` was called with a message
after processing an initial segment. -/
inductive BatchResult
  | completed (processed : List IOPath)
  | exited (processed : List IOPath) (msg : String)
deriving DecidableEq

/-- The batch loop of imaging_viewer.main (lines 80-94) over a file system
`fs` (which paths exist).  For each io_path in order: if its input path does
not exist, `sys.exit("%s does not exist" % path)` terminates the whole
process; otherwise the session runs (its internal effects are modelled
separately by `runMain`) and the loop moves on. -/
def processBatch (fs : String → Bool) : List IOPath → BatchResult
  | [] => .completed []
  | io :: rest =>
    if fs (inputPath io) then
      match processBatch fs rest with
      | .completed l => .completed (io :: l)
      | .exited l m => .exited (io :: l) m
    else .exited [] (inputPath io ++ " does not exist")

/-- Observable actions of point_cloud_viewer.py. -/
inductive PcvEvent
  | decodeRecord (pc : RadarPointCloud)
  | scatterPlot (pts : List Point)
  | rasterFrame
  | sinkFrame
deriving DecidableEq

def PcvEvent.isDecode : PcvEvent → Bool
  | .decodeRecord _ => true
  | _ => false

def PcvEvent.isRaster : PcvEvent → Bool
  | .rasterFrame => true
  | _ => false

def PcvEvent.isSink : PcvEvent → Bool
  | .sinkFrame => true
  | _ => false

/-- point_cloud_viewer.convert_point_cloud_stream (lines 93-108).  The body
contains no `yield`, so the function is not a generator: a call executes the
whole loop eagerly, iterating the `RadarDataStreamer` (decoding every record
of the file) and calling `plt.scatter` / `plt.show` on each non-empty point
cloud.  No raster frame is produced and nothing is returned. -/
def pcv_convert_point_cloud_stream (recs : List RadarPointCloud) :
    List PcvEvent :=
  recs.foldr
    (fun pc acc =>
      PcvEvent.decodeRecord pc ::
        (if pc.point_cloud.length = 0 then acc
         else PcvEvent.scatterPlot pc.point_cloud :: acc))
    []

/-- Result of one iteration of the session loop of point_cloud_viewer.main
(lines 57-91) on the records of one input file. -/
structure PcvSessionResult where
  events : List PcvEvent
  video_writer : Option (ℤ × ℤ)
deriving DecidableEq

/-- One iteration of point_cloud_viewer.main's session loop (lines 57-91):
`video_writer = None`, a print, then a call to
`convert_point_cloud_stream` — which runs eagerly (see above).  The whole
per-frame block (lines 63-91) is a bare string literal and executes nothing,
so `video_writer` is still `None` at the end of the iteration. -/
def pcv_main_session (recs : List RadarPointCloud) : PcvSessionResult :=
  { events := pcv_convert_point_cloud_stream recs, video_writer := none }

end Viewer

namespace Viewer

/-- A sample point lying just outside the imaging window (x = -0.05 m). -/
def pOut : Point := { x := -1/20, y := 0, aux := 0 }

/-- A sample point far outside the imaging window (x = 100 m). -/
def pFar : Point := { x := 100, y := 0, aux := 0 }

/-- A sample in-window point at the window corner (xmin, ymin). -/
def pCorner : Point := { x := 0, y := -30, aux := 0 }

/-- A sample non-empty record. -/
def recOne : RadarPointCloud := { frame_id := 7, timestamp := 1, point_cloud := [pCorner] }

/-- A sample record with an empty point list. -/
def recEmpty : RadarPointCloud := { frame_id := 3, timestamp := 1/2, point_cloud := [] }

/-- A circle center whose radius-1 disc lies wholly outside the raster. -/
def offRaster (ctr : ℤ × ℤ) : Bool :=
  decide (ctr.1 < -1) || decide (imsize_x < ctr.1) ||
    decide (ctr.2 < -1) || decide (imsize_y < ctr.2)

theorem imsize_y_eq : imsize_y = 600 := by
  norm_num [imsize_y, pyInt, ymax, ymin, im_res]

theorem imsize_x_eq : imsize_x = 600 := by
  norm_num [imsize_x, pyInt, xmax, xmin, im_res]

theorem pixelCenter_pOut : pixelCenter pOut = (300, 0) := by
  norm_num [pOut, pixelCenter, transform, pyInt, xmin, ymin, im_res]

theorem pixelCenter_pFar : pixelCenter pFar = (300, 1000) := by
  norm_num [pFar, pixelCenter, transform, pyInt, xmin, ymin, im_res]

theorem pixelCenter_pCorner : pixelCenter pCorner = (0, 0) := by
  norm_num [pCorner, pixelCenter, transform, pyInt, xmin, ymin, im_res]

/-- Pointwise value of a fold of marker stamps: a pixel is the marker color
exactly when some already-stamped point covers it, else whatever the initial
image held. -/
theorem foldl_stamp_eval (pts : List Point) (img : ℤ → ℤ → Color) (r c : ℤ) :
    pts.foldl (fun im p => stampCircle im (pixelCenter p)) img r c =
      if pts.any (fun p => covers p r c) then markerColor else img r c := by
  induction pts generalizing img with
  | nil => simp
  | cons p rest ih =>
    rw [List.foldl_cons, ih]
    have hs : stampCircle img (pixelCenter p) r c =
        if covers p r c then markerColor else img r c := rfl
    cases hp : covers p r c <;>
      cases ha : rest.any (fun q => covers q r c) <;>
        simp [List.any_cons, hp, ha, hs]

/-- Pointwise value of the point-cloud raster. -/
theorem pc_image_eval (pts : List Point) (r c : ℤ) :
    pc_image pts r c =
      if pts.any (fun p => covers p r c) then markerColor else black :=
  foldl_stamp_eval pts (fun _ _ => black) r c

theorem covers_eq_false_of_offRaster (p : Point)
    (h : offRaster (pixelCenter p) = true) (r c : ℤ) :
    covers p r c = false := by
  by_contra hc
  rw [Bool.not_eq_false] at hc
  unfold covers inBounds markerCovers at hc
  simp only [Bool.and_eq_true, decide_eq_true_eq] at hc
  obtain ⟨⟨⟨⟨h0r, hry⟩, h0c⟩, hcx⟩, hm⟩ := hc
  have hc1 : (c - (pixelCenter p).1) ^ 2 ≤ 1 := by nlinarith [sq_nonneg (r - (pixelCenter p).2)]
  have hr1 : (r - (pixelCenter p).2) ^ 2 ≤ 1 := by nlinarith [sq_nonneg (c - (pixelCenter p).1)]
  have hc2 : |c - (pixelCenter p).1| ≤ 1 := (sq_le_one_iff_abs_le_one _).mp hc1
  have hr2 : |r - (pixelCenter p).2| ≤ 1 := (sq_le_one_iff_abs_le_one _).mp hr1
  rw [abs_le] at hc2 hr2
  unfold offRaster at h
  simp only [Bool.or_eq_true, decide_eq_true_eq] at h
  rcases h with ((h | h) | h) | h <;> omega

end Viewer

namespace Viewer

/-- C1: for every point of a point-cloud frame, the renderer maps physical
coordinates to raster pixels by `pixel_x = (point_y - ymin) / resolution` (the
raster column) and `pixel_y = (point_x - xmin) / resolution` (the raster row),
with Python `int()` truncation at the stamping call; in particular a point at
exactly `(xmin, ymin)` maps to pixel `(0, 0)`. -/
theorem C1_point_transform (p : Point) :
    (transform p).x = (p.x - xmin) / im_res ∧
    (transform p).y = (p.y - ymin) / im_res ∧
    pixelCenter p = (pyInt ((p.y - ymin) / im_res), pyInt ((p.x - xmin) / im_res)) ∧
    ∀ a : ℚ, pixelCenter { x := xmin, y := ymin, aux := a } = (0, 0) := by
  refine ⟨rfl, rfl, rfl, fun a => ?_⟩
  norm_num [pixelCenter, transform, pyInt, xmin, ymin, im_res]

/-- C2, counterexample: the point (x, y) = (-0.05, 0) lies outside the imaging
window (x < xmin), yet the raster rendered from the frame containing only this
point differs from the raster of the empty frame — Python `int()` truncates
-0.5 to 0, so the marker is stamped at pixel (0, 300).  The claim that a point
outside the window is never rasterized is therefore false. -/
theorem C2_counterexample :
    pOut.x < xmin ∧ pc_image [pOut] 0 300 ≠ pc_image [] 0 300 := by
  constructor
  · norm_num [pOut, xmin]
  · have hb : inBounds 0 300 = true := by
      norm_num [inBounds, imsize_x_eq, imsize_y_eq]
    have hm : markerCovers (300, 0) 0 300 = true := by norm_num [markerCovers]
    have h1 : pc_image [pOut] 0 300 = markerColor := by
      simp [pc_image, stampCircle, pixelCenter_pOut, hb, hm]
    have h2 : pc_image [] 0 300 = black := rfl
    rw [h1, h2]
    simp [markerColor, black]

/-- C2 (amended): a point is silently dropped — the output raster is
pointwise identical to the raster produced without it, and no error is
raised — whenever its mapped marker lies wholly outside the raster, i.e. when
its truncated pixel center is more than one pixel outside the raster bounds.
Because `int()` truncates toward zero and the marker has radius 1, a point
slightly outside the physical window (e.g. x = -0.05 m) can still be
rasterized. -/
theorem C2_off_raster_points_dropped (pre post : List Point) (p : Point)
    (h : offRaster (pixelCenter p) = true) (r c : ℤ) :
    pc_image (pre ++ p :: post) r c = pc_image (pre ++ post) r c := by
  rw [pc_image_eval, pc_image_eval]
  have hc := covers_eq_false_of_offRaster p h r c
  simp [List.any_append, List.any_cons, hc]

theorem C2_off_raster_points_dropped_witness :
    offRaster (pixelCenter pFar) = true ∧
      pc_image ([pCorner] ++ pFar :: []) 3 3 = pc_image ([pCorner] ++ []) 3 3 := by
  have h : offRaster (pixelCenter pFar) = true := by
    simp [offRaster, pixelCenter_pFar, imsize_y_eq]
  exact ⟨h, C2_off_raster_points_dropped [pCorner] [] pFar h 3 3⟩

/-- C9: the raster produced by the point-cloud renderer holds only the
background value (0,0,0) and the marker color (255,0,0), and every pixel
covered by a stamped marker holds exactly the marker color (255,0,0). -/
theorem C9_marker_pixels (pts : List Point) (r c : ℤ) :
    (pc_image pts r c = black ∨ pc_image pts r c = markerColor) ∧
      ∀ p, p ∈ pts → covers p r c = true → pc_image pts r c = markerColor := by
  rw [pc_image_eval]
  cases ha : pts.any (fun q => covers q r c) with
  | true => exact ⟨Or.inr (if_pos rfl), fun _ _ _ => if_pos rfl⟩
  | false =>
    refine ⟨Or.inl (if_neg (by simp)), fun p hp hcov => ?_⟩
    have hany : pts.any (fun q => covers q r c) = true :=
      List.any_eq_true.mpr ⟨p, hp, hcov⟩
    rw [hany] at ha
    exact Bool.noConfusion ha

theorem C9_marker_pixels_witness :
    pc_image [pCorner] 0 0 = markerColor := by
  have hcov : covers pCorner 0 0 = true := by
    simp [covers, pixelCenter_pCorner, inBounds, markerCovers, imsize_x_eq, imsize_y_eq]
  exact (C9_marker_pixels [pCorner] 0 0).2 pCorner (List.mem_singleton.mpr rfl) hcov

end Viewer

namespace Viewer

/-- After the NameError the loop performs nothing further. -/
theorem foldl_mainStep_crashed (b : Bool) (l : List (RadarPointCloud × Raster))
    (s : MainState) (h : s.crashed = true) :
    l.foldl (mainStep b) s = s := by
  induction l with
  | nil => rfl
  | cons pr rest ih => rw [List.foldl_cons, mainStep, if_pos h, ih]

/-- Without an output directory the loop never constructs a video writer and
never crashes: it only pushes frames to the display. -/
theorem foldl_mainStep_no_output (l : List (RadarPointCloud × Raster))
    (s : MainState) (h : s.crashed = false) :
    (l.foldl (mainStep false) s).constructions = s.constructions ∧
      (l.foldl (mainStep false) s).crashed = false ∧
      (l.foldl (mainStep false) s).displayed = s.displayed + l.length := by
  induction l generalizing s with
  | nil => exact ⟨rfl, h, rfl⟩
  | cons pr rest ih =>
    rw [List.foldl_cons, mainStep, if_neg (by simp [h])]
    simp only [Bool.false_and, if_neg Bool.false_ne_true]
    obtain ⟨h1, h2, h3⟩ := ih { s with displayed := s.displayed + 1 } h
    refine ⟨h1, h2, ?_⟩
    rw [h3]
    simp [List.length_cons]
    omega

/-- C3: a record whose decoded point-cloud frame has an empty point list is
skipped entirely: the lazy stream yields nothing for it, and the main loop's
observable state (display pushes, encoder writes, writer constructions) is
exactly that of the same record list with the record removed — zero frames
reach any sink for that record. -/
theorem C3_empty_record_skipped (b : Bool) (l₁ l₂ : List RadarPointCloud)
    (pc : RadarPointCloud) (h : pc.point_cloud = []) :
    convert_point_cloud_stream (l₁ ++ pc :: l₂) =
        convert_point_cloud_stream (l₁ ++ l₂) ∧
      runMain b (l₁ ++ pc :: l₂) = runMain b (l₁ ++ l₂) := by
  have h1 : convert_point_cloud_stream (l₁ ++ pc :: l₂) =
      convert_point_cloud_stream (l₁ ++ l₂) := by
    unfold convert_point_cloud_stream
    rw [List.filterMap_append, List.filterMap_append, List.filterMap_cons]
    rw [if_pos (by rw [h]; rfl)]
  exact ⟨h1, by unfold runMain; rw [h1]⟩

theorem C3_empty_record_skipped_witness :
    runMain false ([] ++ recEmpty :: [recOne]) = runMain false ([] ++ [recOne]) :=
  (C3_empty_record_skipped false [] [recOne] recEmpty rfl).2

/-- C5: the video writer is created lazily and exactly once.  Without an
output directory no writer is ever constructed; with one, no writer exists
before the first rendered frame (an empty stream constructs none), and on the
first rendered frame exactly one writer is constructed, from that frame's
width and height.  (In the source the construction at line 107 is immediately
followed by a NameError — `stack` is undefined in `main` — so the loop aborts
right after; this does not affect the claim's conjuncts.) -/
theorem C5_lazy_video_writer (recs : List RadarPointCloud) :
    (runMain false recs).constructions = [] ∧
      (convert_point_cloud_stream recs = [] →
        (runMain true recs).constructions = []) ∧
      ∀ pr rest, convert_point_cloud_stream recs = pr :: rest →
        (runMain true recs).constructions = [(pr.2.width, pr.2.height)] := by
  refine ⟨?_, ?_, ?_⟩
  · exact (foldl_mainStep_no_output (convert_point_cloud_stream recs)
      initMainState rfl).1
  · intro h
    unfold runMain
    rw [h]
    rfl
  · intro pr rest h
    unfold runMain
    rw [h, List.foldl_cons]
    have hstep : mainStep true initMainState pr =
        { initMainState with constructions := [(pr.2.width, pr.2.height)],
                             crashed := true } := rfl
    rw [hstep, foldl_mainStep_crashed true rest _ rfl]

theorem C5_lazy_video_writer_witness :
    (runMain true [recOne]).constructions = [(imsize_x, imsize_y)] :=
  (C5_lazy_video_writer [recOne]).2.2
    (recOne, { height := imsize_y, width := imsize_x,
               pix := pc_image recOne.point_cloud }) [] rfl

end Viewer

namespace Viewer

theorem fmtFloat2_example : fmtFloat2 (314159 / 100000 : ℚ) = "3.14" := by
  have hn : roundHalfEven ((314159 / 100000 : ℚ) * 100) = 314 := by
    norm_num [roundHalfEven]
  simp only [fmtFloat2]
  rw [hn]
  rfl

theorem fmtFloat2_zero : fmtFloat2 (0 : ℚ) = "0.00" := by
  have hn : roundHalfEven ((0 : ℚ) * 100) = 0 := by norm_num [roundHalfEven]
  simp only [fmtFloat2]
  rw [hn]
  rfl

/-- C4: the overlay stage stamps onto the frame exactly the label string
`"<frame_id>:<timestamp formatted to 2 decimal places>"`; in particular
frame_id 42 with timestamp 3.14159 yields the label `"42:3.14"`. -/
theorem C4_overlay_label (raw : RadarPointCloud) (im : AnnotatedRaster) (b : Bool) :
    (overlay_metadata raw im b).events =
        im.events ++ [OverlayEvent.label
          (toString raw.frame_id ++ ":" ++ fmtFloat2 raw.timestamp)] ∧
      fmtFloat2 (314159 / 100000 : ℚ) = "3.14" ∧
      (overlay_metadata
          { frame_id := 42, timestamp := 314159 / 100000, point_cloud := [] }
          { raster := { height := imsize_y, width := imsize_x, pix := fun _ _ => black },
            events := [] } false).events = [OverlayEvent.label "42:3.14"] := by
  refine ⟨rfl, fmtFloat2_example, ?_⟩
  simp only [overlay_metadata, draw_timestamp, fmtFloat2_example]
  decide

/-- C8, counterexample: calling imaging_viewer's `overlay_metadata` with
`show_range_marker = True` stamps only the label — no grid-line overlay event
is produced — so the claim that enabling the flag draws distance grid markers
in addition to the label is false. -/
theorem C8_counterexample :
    (overlay_metadata { frame_id := 1, timestamp := 0, point_cloud := [] }
        { raster := { height := imsize_y, width := imsize_x, pix := fun _ _ => black },
          events := [] } true).events = [OverlayEvent.label "1:0.00"] := by
  simp only [overlay_metadata, draw_timestamp, fmtFloat2_zero]
  decide

/-- C8 (amended): `show_range_marker` has no effect in imaging_viewer's
`overlay_metadata`: the range-grid drawing code sits inside the function's
docstring (lines 179-189) and is never executed, so for either flag value the
result is identical and consists of the unchanged frame with exactly the label
stamped onto it. -/
theorem C8_range_marker_inert (raw : RadarPointCloud) (im : AnnotatedRaster) (b : Bool) :
    overlay_metadata raw im b = overlay_metadata raw im false ∧
      (overlay_metadata raw im b).raster = im.raster ∧
      (overlay_metadata raw im b).events =
        im.events ++ [OverlayEvent.label
          (toString raw.frame_id ++ ":" ++ fmtFloat2 raw.timestamp)] :=
  ⟨rfl, rfl, rfl⟩

/-- C6, counterexample: a batch of two radar names over a file system in
which only the second radar's input exists.  The batch loop exits with
`sys.exit` on the first missing path having processed nothing: the second
requested input — whose file exists — is never processed, so the claim that
the orchestrator proceeds to the remaining inputs is false. -/
theorem C6_counterexample :
    processBatch (fun s => s == "d/b_images.pbs")
        [mkIOPath "d" none false "a", mkIOPath "d" none false "b"] =
      BatchResult.exited [] "d/a_images.pbs does not exist" ∧
      (fun s => s == "d/b_images.pbs") (inputPath (mkIOPath "d" none false "b")) =
        true := by
  refine ⟨?_, by decide⟩
  rfl

/-- C6 (amended): a missing input file terminates the whole batch at once:
`sys.exit` reports the offending path and no io_path after the failing one is
processed, however many inputs remain. -/
theorem C6_missing_input_aborts_batch (fs : String → Bool) (pre : List IOPath)
    (io : IOPath) (rest : List IOPath)
    (hpre : ∀ q ∈ pre, fs (inputPath q) = true)
    (h : fs (inputPath io) = false) :
    processBatch fs (pre ++ io :: rest) =
      BatchResult.exited pre (inputPath io ++ " does not exist") := by
  induction pre with
  | nil =>
    rw [List.nil_append]
    unfold processBatch
    rw [h]
    simp
  | cons q pre ih =>
    rw [List.cons_append]
    unfold processBatch
    rw [hpre q (List.mem_cons_self q pre),
        ih (fun x hx => hpre x (List.mem_cons_of_mem q hx))]
    simp

theorem C6_missing_input_aborts_batch_witness :
    processBatch (fun s => s == "d/b_images.pbs")
        ([] ++ mkIOPath "d" none false "a" :: [mkIOPath "d" none false "b"]) =
      BatchResult.exited []
        (inputPath (mkIOPath "d" none false "a") ++ " does not exist") :=
  C6_missing_input_aborts_batch (fun s => s == "d/b_images.pbs") []
    (mkIOPath "d" none false "a") [mkIOPath "d" none false "b"]
    (by simp) (by decide)

/-- C7, counterexample: in point-cloud mode imaging_viewer derives the output
path `<radar-name>.mp4`, not `<radar-name>_points.mp4` — the output path is
computed before the mode branch (line 64). -/
theorem C7_counterexample :
    (mkIOPath "i" (some "o") true "r").output_path = some "o/r.mp4" ∧
      (mkIOPath "i" (some "o") true "r").output_path ≠ some "o/r_points.mp4" := by
  refine ⟨rfl, by decide⟩

/-- C7 (amended): imaging_viewer names the output video
`<radar-name>.mp4` under the output directory in both image and point-cloud
mode (and derives no output path without an output directory); the
`<radar-name>_points.mp4` naming is produced only by the separate
point_cloud_viewer tool. -/
theorem C7_output_video_names (i o r : String) (b : Bool) :
    (mkIOPath i (some o) b r).output_path = some (pyJoin o (r ++ ".mp4")) ∧
      (mkIOPath i none b r).output_path = none ∧
      (pcv_mkPaths i (some o) r).2 = some (pyJoin o (r ++ "_points.mp4")) := by
  refine ⟨?_, ?_, rfl⟩ <;> cases b <;> rfl

/-- C10, counterexample: running point_cloud_viewer's session on a stream
with one non-empty record decodes that record and scatter-plots its points —
`convert_point_cloud_stream` contains no `yield` and therefore executes
eagerly when called — so the claim that no record is ever read or decoded is
false. -/
theorem C10_counterexample :
    (pcv_main_session [recOne]).events =
        [PcvEvent.decodeRecord recOne, PcvEvent.scatterPlot [pCorner]] ∧
      (pcv_main_session [recOne]).events.countP PcvEvent.isDecode = 1 := by
  exact ⟨rfl, rfl⟩

theorem pcv_convert_counts (recs : List RadarPointCloud) :
    (pcv_convert_point_cloud_stream recs).countP PcvEvent.isDecode = recs.length ∧
      (pcv_convert_point_cloud_stream recs).countP PcvEvent.isRaster = 0 ∧
      (pcv_convert_point_cloud_stream recs).countP PcvEvent.isSink = 0 := by
  induction recs with
  | nil => exact ⟨rfl, rfl, rfl⟩
  | cons pc rest ih =>
    obtain ⟨h1, h2, h3⟩ := ih
    have hstep : pcv_convert_point_cloud_stream (pc :: rest) =
        PcvEvent.decodeRecord pc ::
          (if pc.point_cloud.length = 0 then pcv_convert_point_cloud_stream rest
           else PcvEvent.scatterPlot pc.point_cloud ::
             pcv_convert_point_cloud_stream rest) := rfl
    by_cases hpc : pc.point_cloud.length = 0
    · rw [hstep, if_pos hpc]
      simp [List.countP_cons, h1, h2, h3, PcvEvent.isDecode, PcvEvent.isRaster,
        PcvEvent.isSink]
    · rw [hstep, if_neg hpc]
      simp [List.countP_cons, h1, h2, h3, PcvEvent.isDecode, PcvEvent.isRaster,
        PcvEvent.isSink]

/-- C10 (amended): point_cloud_viewer's `convert_point_cloud_stream` is not a
generator (it contains no `yield`), so main's call executes it eagerly: every
record of the stream is read and decoded (one decode event per record) and
each non-empty frame is scatter-plotted; the per-frame raster/sink loop is an
inert string literal, so no raster frame is rendered, no frame reaches any
sink, and `video_writer` remains `None` for the whole run. -/
theorem C10_pcv_eager_consumption (recs : List RadarPointCloud) :
    (pcv_main_session recs).events.countP PcvEvent.isDecode = recs.length ∧
      (pcv_main_session recs).events.countP PcvEvent.isRaster = 0 ∧
      (pcv_main_session recs).events.countP PcvEvent.isSink = 0 ∧
      (pcv_main_session recs).video_writer = none := by
  obtain ⟨h1, h2, h3⟩ := pcv_convert_counts recs
  exact ⟨h1, h2, h3, rfl⟩

end Viewer
